import Mathlib

/-!
Verification of the SmartInsider intentions universe-selection algorithm
(`SmartInsiderIntentionUniverseSelectionAlgorithm.py`).

The script consists of three callbacks on a `QCAlgorithm` object:
`Initialize` (engine configuration followed by a historical-data
self-check), `UniverseSelection` (a per-point logging loop followed by a
list comprehension filtering on two nullable numeric thresholds) and
`OnSecuritiesChanged` (pure logging).

Numeric fields are modelled as `Option ℚ` (Python `None` is `none`); the
thresholds `0.005` and `100000000` are exact rationals, so the order
relations the filter evaluates coincide with the source's comparisons at
every boundary the claims mention.
-/

namespace SmartInsider

/-- One universe datum, with the seven fields the script reads.  Numeric
fields are nullable in the external feed, hence `Option ℚ`. -/
structure SmartInsiderIntention where
  Symbol : String
  Amount : Option ℚ
  AmountValue : Option ℚ
  Percentage : Option ℚ
  MinimumPrice : Option ℚ
  MaximumPrice : Option ℚ
  USDMarketCap : Option ℚ
deriving DecidableEq

/-- The literal `0.005` of source line 42, as an exact rational
(`percentageThreshold_eq_decimal` below checks it equals the decimal
literal). -/
def percentageThreshold : ℚ := mkRat 5 1000

/-- The literal `100000000` of source line 43. -/
def marketCapThreshold : ℚ := 100000000

/-- Python truthiness of a nullable numeric field: `None` and `0` are
falsy, every other value is truthy. -/
def truthy : Option ℚ → Bool
  | none => false
  | some x => x != 0

/-- Comparison `x > c` on a guarded field: by the time the source
evaluates it, the field is known non-null (see `selectionGuardEval` for
the evaluation-order model). -/
def gtThreshold (x : Option ℚ) (c : ℚ) : Bool :=
  match x with
  | none => false
  | some v => decide (v > c)

/-- Guard of the list comprehension, source lines 42-43:
`d.Percentage and d.Percentage > 0.005 and d.USDMarketCap and
d.USDMarketCap > 100000000`, as a total boolean. -/
def selected (d : SmartInsiderIntention) : Bool :=
  truthy d.Percentage && gtThreshold d.Percentage percentageThreshold
    && truthy d.USDMarketCap && gtThreshold d.USDMarketCap marketCapThreshold

/-- Python comparison of a nullable field against a float threshold:
comparing `None` with a number raises a `TypeError`. -/
def pyCompareGt (x : Option ℚ) (c : ℚ) : Except String Bool :=
  match x with
  | none => Except.error "TypeError: unsupported comparison of NoneType and float"
  | some v => Except.ok (decide (v > c))

/-- Evaluation of the comprehension guard with Python's short-circuiting
`and`: each conjunct is evaluated left to right and a falsy value stops
the chain, so a null field is never compared against a threshold. -/
def selectionGuardEval (d : SmartInsiderIntention) : Except String Bool :=
  if truthy d.Percentage then
    match pyCompareGt d.Percentage percentageThreshold with
    | Except.error e => Except.error e
    | Except.ok b =>
      if b then
        if truthy d.USDMarketCap then
          pyCompareGt d.USDMarketCap marketCapThreshold
        else Except.ok false
      else Except.ok false
  else Except.ok false

/-- The list comprehension of source lines 41-43:
`[d.Symbol for d in data if ...]`. -/
def UniverseSelection : List SmartInsiderIntention → List String
  | [] => []
  | d :: rest =>
      if selected d then d.Symbol :: UniverseSelection rest
      else UniverseSelection rest

/-- Rendering of a nullable field inside the f-string of source line 38
(Python prints `None` for a null field). -/
def fmtField : Option ℚ → String
  | none => "None"
  | some v => toString v

/-- The comma-joined log line of source line 38. -/
def logLine (d : SmartInsiderIntention) : String :=
  d.Symbol ++ "," ++ fmtField d.Amount ++ "," ++ fmtField d.AmountValue
    ++ "," ++ fmtField d.Percentage ++ "," ++ fmtField d.MinimumPrice
    ++ "," ++ fmtField d.MaximumPrice ++ "," ++ fmtField d.USDMarketCap

/-- Engine data resolutions (only `Daily` is used by the script). -/
inductive Resolution where
  | Daily
  | Hour
  | Minute
deriving DecidableEq

/-- A calendar date as passed to `SetStartDate` / `SetEndDate`. -/
structure Date where
  year : Nat
  month : Nat
  day : Nat
deriving DecidableEq

/-- A registered universe: the name of its data source type and the
selection callback attached to it. -/
structure UniverseRegistration where
  dataType : String
  filter : List SmartInsiderIntention → List String

/-- The engine-level configuration the script's `Initialize` writes. -/
structure EngineConfig where
  universeResolution : Option Resolution
  startDate : Option Date
  endDate : Option Date
  cash : Option ℚ
  universes : List UniverseRegistration

/-- Engine state before `Initialize` runs: nothing configured. -/
def initialConfig : EngineConfig :=
  { universeResolution := none
  , startDate := none
  , endDate := none
  , cash := none
  , universes := [] }

/-- Setter `self.UniverseSettings.Resolution = r` (source line 19). -/
def setUniverseResolution (c : EngineConfig) (r : Resolution) : EngineConfig :=
  { c with universeResolution := some r }

/-- Setter `self.SetStartDate(y, m, d)` (source line 21). -/
def SetStartDate (c : EngineConfig) (y m d : Nat) : EngineConfig :=
  { c with startDate := some ⟨y, m, d⟩ }

/-- Setter `self.SetEndDate(y, m, d)` (source line 22). -/
def SetEndDate (c : EngineConfig) (y m d : Nat) : EngineConfig :=
  { c with endDate := some ⟨y, m, d⟩ }

/-- Setter `self.SetCash(x)` (source line 23). -/
def SetCash (c : EngineConfig) (x : ℚ) : EngineConfig :=
  { c with cash := some x }

/-- Registration `self.AddUniverse(dataType, filter)` (source line 26). -/
def AddUniverse (c : EngineConfig) (dataType : String)
    (filter : List SmartInsiderIntention → List String) : EngineConfig :=
  { c with universes := c.universes ++ [⟨dataType, filter⟩] }

/-- The per-date loop of source lines 32-34: raise on the first dated
entry holding fewer than one record. -/
def checkEachDate : List (List SmartInsiderIntention) → Except String Unit
  | [] => Except.ok ()
  | dataForDate :: rest =>
      if dataForDate.length < 1 then
        Except.error "Unexpected historical universe data!"
      else checkEachDate rest

/-- The self-check of source lines 29-34 over the history returned by the
engine: first the count test, then the per-date loop. -/
def validateHistory (history : List (List SmartInsiderIntention)) :
    Except String Unit :=
  if history.length != 10 then
    Except.error ("Unexpected history count " ++ toString history.length ++ "!")
  else checkEachDate history

/-- The configuration built by source lines 19-26, written as the setter
chain the source performs. -/
def configuredState : EngineConfig :=
  AddUniverse
    (SetCash
      (SetEndDate
        (SetStartDate
          (setUniverseResolution initialConfig Resolution.Daily)
          2022 2 14)
        2022 2 18)
      100000)
    "SmartInsiderIntentionUniverse" UniverseSelection

/-- The `Initialize` callback (source lines 17-34).  The history returned
by the engine's `History` call is a parameter; `Initialize` configures the
engine and then runs the self-check, failing with the check's error when
it raises. -/
def Initialize (history : List (List SmartInsiderIntention)) :
    Except String EngineConfig :=
  let c0 := setUniverseResolution initialConfig Resolution.Daily
  let c1 := SetStartDate c0 2022 2 14
  let c2 := SetEndDate c1 2022 2 18
  let c3 := SetCash c2 100000
  let c4 := AddUniverse c3 "SmartInsiderIntentionUniverse" UniverseSelection
  match validateHistory history with
  | Except.error e => Except.error e
  | Except.ok _ => Except.ok c4

/-- Mutable state of the algorithm object as the callbacks see it: the
engine configuration and the accumulated log. -/
structure AlgoState where
  config : EngineConfig
  log : List String

/-- The `UniverseSelection` callback with its logging loop (source lines
36-43): first the `for` loop appending one log line per datum, then the
comprehension producing the returned list. -/
def runUniverseSelection (s : AlgoState) (data : List SmartInsiderIntention) :
    AlgoState × List String :=
  let s1 := data.foldl (fun st d => { st with log := st.log ++ [logLine d] }) s
  (s1, UniverseSelection data)

/-- The security-changes record: an external notification object of which
the script only consumes the engine-provided string representation
(`changes.ToString()`). -/
structure SecurityChanges where
  stringRepresentation : String

/-- The `OnSecuritiesChanged` callback (source lines 45-46): log the
record's string representation, nothing else. -/
def OnSecuritiesChanged (s : AlgoState) (changes : SecurityChanges) : AlgoState :=
  { s with log := s.log ++ [changes.stringRepresentation] }

/-- A datum with every nullable field null. -/
def nullPoint : SmartInsiderIntention :=
  { Symbol := "A", Amount := none, AmountValue := none, Percentage := none
  , MinimumPrice := none, MaximumPrice := none, USDMarketCap := none }

/-- A datum that passes both thresholds, sharing `nullPoint`'s symbol. -/
def goodPoint : SmartInsiderIntention :=
  { Symbol := "A", Amount := some 10, AmountValue := some 5
  , Percentage := some (mkRat 1 100), MinimumPrice := some 1
  , MaximumPrice := some 2, USDMarketCap := some 200000000 }

/-- A two-point collection in which a rejected datum and a selected datum
carry the same symbol. -/
def c1Data : List SmartInsiderIntention := [nullPoint, goodPoint]

/-- The empty history (zero dated entries). -/
def emptyHistory : List (List SmartInsiderIntention) := []

/-- A history with exactly 10 dated entries, each holding one record. -/
def goodHistory : List (List SmartInsiderIntention) :=
  List.replicate 10 [goodPoint]

/-!
Helper lemmas shared by the claim theorems.
-/

/-- Sanity check: the exact rational used for the threshold is the
decimal literal `0.005` of source line 42. -/
theorem percentageThreshold_eq_decimal : percentageThreshold = 0.005 := by
  norm_num [percentageThreshold]

/-- Sanity check: the market-cap threshold is the literal `100000000` of
source line 43. -/
theorem marketCapThreshold_eq_literal : marketCapThreshold = 100000000 := rfl

/-- Boundary check: a datum whose `Percentage` equals the threshold
exactly is not selected. -/
theorem boundary_percentage_excluded :
    selected { goodPoint with Percentage := some percentageThreshold } = false := by
  decide

/-- Boundary check: a datum whose `USDMarketCap` equals the threshold
exactly is not selected. -/
theorem boundary_marketCap_excluded :
    selected { goodPoint with USDMarketCap := some marketCapThreshold } = false := by
  decide

/-- The comprehension guard holds exactly when both fields are present
and strictly above their thresholds. -/
theorem selected_iff (e : SmartInsiderIntention) :
    selected e = true ↔
      (∃ p, e.Percentage = some p ∧ p > percentageThreshold) ∧
      (∃ m, e.USDMarketCap = some m ∧ m > marketCapThreshold) := by
  unfold selected truthy gtThreshold
  cases hp : e.Percentage with
  | none => simp
  | some p =>
    cases hm : e.USDMarketCap with
    | none => simp
    | some m =>
      simp only [Bool.and_eq_true, decide_eq_true_eq, bne_iff_ne, ne_eq,
        Option.some.injEq]
      constructor
      · rintro ⟨⟨⟨-, h1⟩, -⟩, h2⟩
        exact ⟨⟨p, rfl, h1⟩, ⟨m, rfl, h2⟩⟩
      · rintro ⟨⟨p2, hp2, h1⟩, ⟨m2, hm2, h2⟩⟩
        subst hp2; subst hm2
        refine ⟨⟨⟨?_, h1⟩, ?_⟩, h2⟩
        · exact ne_of_gt (lt_trans (by decide) h1)
        · exact ne_of_gt (lt_trans (by decide) h2)

/-- The comprehension returns the symbols of the datums passing the
guard, in input order. -/
theorem universeSelection_eq_filterMap (data : List SmartInsiderIntention) :
    UniverseSelection data
      = (data.filter (fun d => selected d)).map (fun d => d.Symbol) := by
  induction data with
  | nil => rfl
  | cons d rest ih =>
    by_cases h : selected d
    · simp [UniverseSelection, List.filter_cons, h, ih]
    · simp [UniverseSelection, List.filter_cons, h, ih]

/-- The short-circuit evaluation of the guard never raises: it computes
exactly the total boolean guard. -/
theorem selectionGuardEval_eq_ok (d : SmartInsiderIntention) :
    selectionGuardEval d = Except.ok (selected d) := by
  unfold selectionGuardEval pyCompareGt selected truthy gtThreshold
  cases hp : d.Percentage with
  | none => simp
  | some p =>
    cases hm : d.USDMarketCap with
    | none =>
      by_cases h0 : (p != 0) = true
      · simp [h0]
      · simp [h0]
    | some m =>
      by_cases h0 : (p != 0) = true
      · by_cases h1 : decide (p > percentageThreshold) = true
        · by_cases h2 : (m != 0) = true
          · simp [h0, h1, h2]
          · simp [h0, h1, h2]
        · simp [h0, h1]
      · simp [h0]

/-- The per-date loop raises exactly when some dated entry is empty. -/
theorem checkEachDate_error_iff (h : List (List SmartInsiderIntention)) :
    (∃ e, checkEachDate h = Except.error e) ↔ ∃ entry ∈ h, entry = [] := by
  induction h with
  | nil => simp [checkEachDate]
  | cons d rest ih =>
    by_cases hd : d.length < 1
    · have hnil : d = [] := List.length_eq_zero.mp (by omega)
      simp [checkEachDate, hd, hnil]
    · have hne : d ≠ [] := by
        intro hc; subst hc; simp at hd
      simp [checkEachDate, hd, ih, hne]

/-- The logging loop of `UniverseSelection` appends exactly one log line
per datum and touches nothing else in the state. -/
theorem foldl_logLoop (data : List SmartInsiderIntention) (s : AlgoState) :
    data.foldl (fun st d => { st with log := st.log ++ [logLine d] }) s
      = { s with log := s.log ++ data.map logLine } := by
  induction data generalizing s with
  | nil => simp
  | cons d rest ih =>
    simp only [List.foldl_cons, List.map_cons]
    rw [ih]
    simp

/-- Occurrence count of a symbol in the selection: one occurrence per
qualifying datum carrying it. -/
theorem universeSelection_count (data : List SmartInsiderIntention) (s : String) :
    (UniverseSelection data).count s
      = (data.filter (fun d => selected d && d.Symbol == s)).length := by
  induction data with
  | nil => rfl
  | cons d rest ih =>
    by_cases hsel : selected d
    · by_cases hsym : d.Symbol == s
      · simp [UniverseSelection, hsel, List.filter_cons, hsym, List.count_cons, ih]
      · simp [UniverseSelection, hsel, List.filter_cons, hsym, List.count_cons, ih]
    · simp [UniverseSelection, hsel, List.filter_cons, ih]

/-- The selection is a subsequence of the input's symbols. -/
theorem universeSelection_sublist (data : List SmartInsiderIntention) :
    List.Sublist (UniverseSelection data) (data.map (fun d => d.Symbol)) := by
  rw [universeSelection_eq_filterMap]
  exact List.Sublist.map _ (List.filter_sublist data)

/-- Initialization is the validation of the engine-provided history,
mapped onto the configuration built by the setter chain. -/
theorem initialize_cases (history : List (List SmartInsiderIntention)) :
    Initialize history
      = Except.map (fun _ => configuredState) (validateHistory history) := by
  unfold Initialize
  cases validateHistory history <;> rfl

/-- The count-error message differs from the per-date error message for
every count. -/
theorem countMsg_ne_dataMsg (n : Nat) :
    "Unexpected history count " ++ toString n ++ "!"
      ≠ "Unexpected historical universe data!" := by
  intro h
  have h2 := congrArg String.data h
  have e1 : ("Unexpected history count " ++ toString n ++ "!").data
      = "Unexpected history count ".data ++ ((toString n ++ "!").data) := by
    rw [String.append_assoc]
    exact String.data_append _ _
  rw [e1] at h2
  have e2 : ("Unexpected history count ").data
      = ['U','n','e','x','p','e','c','t','e','d',' ','h','i','s','t','o','r','y',
         ' ','c','o','u','n','t',' '] := rfl
  have e3 : ("Unexpected historical universe data!").data
      = ['U','n','e','x','p','e','c','t','e','d',' ','h','i','s','t','o','r','i',
         'c','a','l',' ','u','n','i','v','e','r','s','e',' ','d','a','t','a','!'] := rfl
  rw [e2, e3] at h2
  simp at h2

end SmartInsider

namespace SmartInsider

/-- Claim C1, counterexample: in a collection where a datum with null
fields shares its symbol with a qualifying datum, the null datum's symbol
does appear in the returned list although the datum itself satisfies
neither threshold condition, so the claimed per-point biconditional
fails. -/
theorem universeSelection_symbol_iff_counterexample :
    nullPoint ∈ c1Data ∧
    ¬ (nullPoint.Symbol ∈ UniverseSelection c1Data ↔
        (∃ p, nullPoint.Percentage = some p ∧ p > percentageThreshold) ∧
        (∃ m, nullPoint.USDMarketCap = some m ∧ m > marketCapThreshold)) := by
  refine ⟨by decide, fun h => ?_⟩
  have hm : nullPoint.Symbol ∈ UniverseSelection c1Data := by decide
  obtain ⟨⟨p, hp, -⟩, -⟩ := h.mp hm
  simp [nullPoint] at hp

/-- Claim C1 (amended): for every data point of the input collection, the
point's symbol appears in the returned list iff some point of the
collection carrying the same symbol has `Percentage` non-null and above
`0.005` and `USDMarketCap` non-null and above `100000000`; the point
itself qualifies (passes the comprehension guard) iff its own two fields
are non-null and above the thresholds. -/
theorem universeSelection_symbol_mem_iff (data : List SmartInsiderIntention)
    (d : SmartInsiderIntention) (hd : d ∈ data) :
    (d.Symbol ∈ UniverseSelection data ↔
      ∃ e ∈ data, e.Symbol = d.Symbol ∧
        (∃ p, e.Percentage = some p ∧ p > percentageThreshold) ∧
        (∃ m, e.USDMarketCap = some m ∧ m > marketCapThreshold)) ∧
    (selected d = true ↔
      (∃ p, d.Percentage = some p ∧ p > percentageThreshold) ∧
      (∃ m, d.USDMarketCap = some m ∧ m > marketCapThreshold)) := by
  refine ⟨?_, selected_iff d⟩
  rw [universeSelection_eq_filterMap]
  simp only [List.mem_map, List.mem_filter]
  constructor
  · rintro ⟨e, ⟨he, hsel⟩, hsym⟩
    exact ⟨e, he, hsym, (selected_iff e).mp hsel⟩
  · rintro ⟨e, he, hsym, hcond⟩
    exact ⟨e, ⟨he, (selected_iff e).mpr hcond⟩, hsym⟩

/-- Witness for C1's amended theorem at the concrete two-point
collection. -/
theorem universeSelection_symbol_mem_iff_witness :
    goodPoint.Symbol ∈ UniverseSelection c1Data :=
  ((universeSelection_symbol_mem_iff c1Data goodPoint (by decide)).1).mpr
    ⟨goodPoint, by decide, rfl, ⟨mkRat 1 100, rfl, by decide⟩,
      ⟨200000000, rfl, by decide⟩⟩

/-- Claim C2: `Initialize` raises exactly when the history count differs
from 10 or some dated entry is empty; with count 10 and all entries
non-empty it completes. -/
theorem initialize_raises_iff (history : List (List SmartInsiderIntention)) :
    ((∃ e, Initialize history = Except.error e) ↔
      history.length ≠ 10 ∨ ∃ entry ∈ history, entry = []) ∧
    (history.length = 10 ∧ (∀ entry ∈ history, entry ≠ []) →
      ∃ cfg, Initialize history = Except.ok cfg) := by
  have hval : (∃ e, validateHistory history = Except.error e) ↔
      history.length ≠ 10 ∨ ∃ entry ∈ history, entry = [] := by
    unfold validateHistory
    by_cases hlen : history.length = 10
    · simp [hlen, checkEachDate_error_iff]
    · simp [hlen]
  have hinit : ∀ e, Initialize history = Except.error e ↔
      validateHistory history = Except.error e := by
    intro e
    rw [initialize_cases]
    cases validateHistory history <;> simp [Except.map]
  constructor
  · simp only [hinit]
    exact hval
  · rintro ⟨hlen, hne⟩
    rw [initialize_cases]
    cases hv : validateHistory history with
    | error e =>
      exfalso
      have : history.length ≠ 10 ∨ ∃ entry ∈ history, entry = [] :=
        hval.mp ⟨e, hv⟩
      rcases this with h | ⟨entry, hmem, hnil⟩
      · exact h hlen
      · exact hne entry hmem hnil
    | ok u => exact ⟨configuredState, by simp [Except.map]⟩

/-- Witness for C2 at a concrete history of 10 non-empty entries. -/
theorem initialize_raises_iff_witness :
    ∃ cfg, Initialize goodHistory = Except.ok cfg :=
  (initialize_raises_iff goodHistory).2 ⟨by decide, by decide⟩

/-- Claim C3: a null field excludes the point (the guard is false and the
short-circuit evaluation yields `false`), and the evaluation never
reaches a comparison of a null value against a threshold: it always
returns a value instead of the `TypeError` such a comparison would
raise. -/
theorem selectionGuard_null_safe (d : SmartInsiderIntention) :
    selectionGuardEval d = Except.ok (selected d) ∧
    ((d.Percentage = none ∨ d.USDMarketCap = none) →
      selected d = false ∧ selectionGuardEval d = Except.ok false) := by
  refine ⟨selectionGuardEval_eq_ok d, ?_⟩
  rintro (hp | hm)
  · have hsel : selected d = false := by simp [selected, truthy, hp]
    rw [selectionGuardEval_eq_ok d, hsel]
    exact ⟨rfl, rfl⟩
  · have hsel : selected d = false := by
      simp [selected, truthy, hm, Bool.and_comm, Bool.and_assoc]
    rw [selectionGuardEval_eq_ok d, hsel]
    exact ⟨rfl, rfl⟩

/-- Witness for C3 at the all-null datum. -/
theorem selectionGuard_null_safe_witness :
    selected nullPoint = false ∧ selectionGuardEval nullPoint = Except.ok false :=
  (selectionGuard_null_safe nullPoint).2 (Or.inl rfl)

end SmartInsider

namespace SmartInsider

/-- Claim C4: the returned list is the symbols of the qualifying points
in input order, a subsequence of the input's symbols, with one occurrence
per qualifying point (no reordering, no deduplication). -/
theorem universeSelection_subsequence_spec (data : List SmartInsiderIntention) :
    UniverseSelection data
      = (data.filter (fun d => selected d)).map (fun d => d.Symbol) ∧
    List.Sublist (UniverseSelection data) (data.map (fun d => d.Symbol)) ∧
    ∀ s, (UniverseSelection data).count s
      = (data.filter (fun d => selected d && d.Symbol == s)).length :=
  ⟨universeSelection_eq_filterMap data, universeSelection_sublist data,
    universeSelection_count data⟩

/-- Claim C5: the selection result is the same from any two starting
states on equal inputs, the call changes nothing in the state but the
log, and a repeated call (from the state the first call produced) returns
the same result. -/
theorem universeSelection_stateless (s1 s2 : AlgoState)
    (data1 data2 : List SmartInsiderIntention) (h : data1 = data2) :
    (runUniverseSelection s1 data1).2 = (runUniverseSelection s2 data2).2 ∧
    (runUniverseSelection s1 data1).1
      = { config := s1.config, log := s1.log ++ data1.map logLine } ∧
    (runUniverseSelection ((runUniverseSelection s1 data1).1) data2).2
      = (runUniverseSelection s1 data1).2 := by
  subst h
  refine ⟨rfl, ?_, rfl⟩
  simp [runUniverseSelection, foldl_logLoop]

/-- Witness for C5 at two different concrete states and the same data. -/
theorem universeSelection_stateless_witness :
    (runUniverseSelection ⟨initialConfig, []⟩ c1Data).2
      = (runUniverseSelection ⟨configuredState, ["x"]⟩ c1Data).2 :=
  (universeSelection_stateless ⟨initialConfig, []⟩ ⟨configuredState, ["x"]⟩
    c1Data c1Data rfl).1

/-- Claim C6: the logging inside `UniverseSelection` has no effect on the
returned list (it equals the pure comprehension), it only appends the
per-point lines to the log, and `OnSecuritiesChanged` only appends the
record's string representation; both callbacks always return. -/
theorem logging_frame (s : AlgoState) (data : List SmartInsiderIntention)
    (changes : SecurityChanges) :
    (runUniverseSelection s data).2 = UniverseSelection data ∧
    (runUniverseSelection s data).1.config = s.config ∧
    (runUniverseSelection s data).1.log = s.log ++ data.map logLine ∧
    (OnSecuritiesChanged s changes).log
      = s.log ++ [changes.stringRepresentation] := by
  refine ⟨rfl, ?_, ?_, rfl⟩
  · simp [runUniverseSelection, foldl_logLoop]
  · simp [runUniverseSelection, foldl_logLoop]

/-- Claim C7: `Initialize` builds exactly the configuration daily
resolution, 2022-02-14 to 2022-02-18, cash 100000, one universe
registration naming `SmartInsiderIntentionUniverse` with
`UniverseSelection` as filter; the configuration is fixed before the
validation query, whose outcome alone decides success. -/
theorem initialize_config_exact (history : List (List SmartInsiderIntention)) :
    (∀ cfg, Initialize history = Except.ok cfg → cfg = configuredState) ∧
    (∀ e, Initialize history = Except.error e →
      validateHistory history = Except.error e) ∧
    configuredState.universeResolution = some Resolution.Daily ∧
    configuredState.startDate = some ⟨2022, 2, 14⟩ ∧
    configuredState.endDate = some ⟨2022, 2, 18⟩ ∧
    configuredState.cash = some 100000 ∧
    configuredState.universes
      = [⟨"SmartInsiderIntentionUniverse", UniverseSelection⟩] := by
  refine ⟨?_, ?_, rfl, rfl, rfl, rfl, rfl⟩
  · intro cfg hcfg
    rw [initialize_cases] at hcfg
    cases hv : validateHistory history <;> rw [hv] at hcfg <;>
      simp [Except.map] at hcfg
    exact hcfg.symm
  · intro e he
    rw [initialize_cases] at he
    cases hv : validateHistory history <;> rw [hv] at he <;>
      simp [Except.map] at he
    rw [he]

/-- Witness for C7 at a concrete passing history. -/
theorem initialize_config_exact_witness :
    configuredState = configuredState :=
  (initialize_config_exact goodHistory).1 configuredState rfl

/-- Claim C8: `OnSecuritiesChanged` appends exactly the record's string
representation to the log and leaves the configuration untouched. -/
theorem onSecuritiesChanged_spec (s : AlgoState) (changes : SecurityChanges) :
    (OnSecuritiesChanged s changes).log
      = s.log ++ [changes.stringRepresentation] ∧
    (OnSecuritiesChanged s changes).config = s.config :=
  ⟨rfl, rfl⟩

/-- Claim C9: on the empty collection the selection returns the empty
list and the state (hence the log) is unchanged. -/
theorem universeSelection_empty_input (s : AlgoState) :
    UniverseSelection [] = [] ∧
    (runUniverseSelection s []).2 = [] ∧
    (runUniverseSelection s []).1 = s :=
  ⟨rfl, rfl, rfl⟩

/-- Claim C10: when the history count differs from 10 the error raised is
the count error (never the per-date error), and the per-date error can
only be raised when the count is exactly 10. -/
theorem initialize_check_order (history : List (List SmartInsiderIntention)) :
    (history.length ≠ 10 →
      Initialize history
        = Except.error
            ("Unexpected history count " ++ toString history.length ++ "!") ∧
      Initialize history ≠ Except.error "Unexpected historical universe data!") ∧
    (Initialize history = Except.error "Unexpected historical universe data!" →
      history.length = 10) := by
  have hcount : history.length ≠ 10 →
      Initialize history
        = Except.error
            ("Unexpected history count " ++ toString history.length ++ "!") := by
    intro hlen
    rw [initialize_cases]
    unfold validateHistory
    have hb : (history.length != 10) = true := by simp [bne_iff_ne, hlen]
    rw [hb]
    rfl
  constructor
  · intro hlen
    refine ⟨hcount hlen, ?_⟩
    rw [hcount hlen]
    intro hc
    exact countMsg_ne_dataMsg history.length (Except.error.inj hc)
  · intro hdata
    by_contra hlen
    rw [hcount hlen] at hdata
    exact countMsg_ne_dataMsg history.length (Except.error.inj hdata)

/-- Witness for C10 at the empty history (count 0). -/
theorem initialize_check_order_witness :
    Initialize emptyHistory
      = Except.error
          ("Unexpected history count " ++ toString emptyHistory.length ++ "!") ∧
    Initialize emptyHistory
      ≠ Except.error "Unexpected historical universe data!" :=
  (initialize_check_order emptyHistory).1 (by decide)

end SmartInsider
